import Mathlib

/-!
Shallow embedding of the mihneamanolache/web-scraper repository.

The source is a Playwright-driven scraper.  The pure configuration logic
(parseBool, getBrowser, setupLaunchOptions) is translated directly.  The
effectful session (Scraper.scrape / Scraper.run / Scraper.cleanup) is embedded
as a deterministic function of an Oracle value that fixes the outcome of every
remote operation (connect, newContext, newPage, goto, ...); the function
threads the partially built result object, the handle state and an event
trace exactly as the source mutates them, and models the try/catch/finally
control flow of part_000 explicitly.
-/

namespace WebScraper

/-- StringBoolean (src/src/types/Scraper.types.ts line 5): the union of the
string literals and the boolean literals; a config field of this type is a
string or a boolean at runtime. -/
inductive StringBoolean where
  | str (s : String)
  | bool (b : Bool)
deriving DecidableEq, Repr

/-- Strict equality of a StringBoolean value against a string literal, as in
the JS comparison value === <string>: a boolean is never strictly equal to a
string. -/
def sbEqStr : StringBoolean → String → Bool
  | .str s, t => s == t
  | .bool _, _ => false

/-- parseBool (src/unnamed/part_002): undefined maps to true, otherwise the
value is compared strictly against the five accepted truthy strings. -/
def parseBool : Option StringBoolean → Bool
  | none => true
  | some v =>
      sbEqStr v ("true") || sbEqStr v ("1") || sbEqStr v ("yes") ||
      sbEqStr v ("on") || sbEqStr v ("enabled")

/-- JS truthiness of a StringBoolean value, used by the plain
if (this._CONFIG.screenshot) tests in part_000: a string is truthy when
non-empty, a boolean is truthy when true. -/
def sbTruthy : StringBoolean → Bool
  | .str s => !(s == "")
  | .bool b => b

/-- Engine picked by getBrowser (src/unnamed/part_001). -/
inductive EngineKind where
  | webkit
  | firefox
  | chromium
deriving DecidableEq, Repr

/-- getBrowser (src/unnamed/part_001): a switch on the family string; the
cases webkit and firefox are explicit and everything else, the absent value
included, falls to the default branch returning chromium. -/
def getBrowser (browser : Option String) : EngineKind :=
  match browser with
  | some s => if s == "webkit" then .webkit else if s == "firefox" then .firefox else .chromium
  | none => .chromium

/-- IScraperConfig (src/src/types/Scraper.types.ts).  proxy_type and
browser_type are kept as runtime strings (the TS enums are string-valued);
numeric fields are rationals, matching JS numbers on the values in play. -/
structure IScraperConfig where
  url : String
  proxy_type : String
  eval_js : Option String := none
  browser_type : Option String := none
  headless : Option StringBoolean := none
  block_ads : Option StringBoolean := none
  stealth : Option StringBoolean := none
  timeout : Option ℚ := none
  block_resources : Option String := none
  wait_until : Option String := none
  view_source : Option StringBoolean := none
  screenshot : Option StringBoolean := none
  wait_for_css : Option String := none
  wait_for : Option ℚ := none
deriving DecidableEq, Repr

/-- IProxyConfig (src/src/types/Scraper.types.ts): the proxy object attached
to the launch options. -/
structure IProxyConfig where
  server : String
  username : String
  password : String
  bypass : String
deriving DecidableEq, Repr

/-- LaunchOptions as the Scraper uses them: the two static defaults plus the
fields part_000 writes.  stealth and blockAds are dynamically attached by the
source only on the chromium branch, hence optional here. -/
structure LaunchOptions where
  headless : Bool := true
  ignoreDefaultArgs : List String := ["--headless"]
  proxy : Option IProxyConfig := none
  stealth : Option Bool := none
  blockAds : Option Bool := none
deriving DecidableEq, Repr

/-- launchOptions (src/src/utils/constants/browser.defaults.ts). -/
def launchOptionsDefaults : LaunchOptions :=
  { headless := true, ignoreDefaultArgs := ["--headless"] }

/-- Process environment, a partial map from variable names to values. -/
def Env : Type := String → Option String

/-- Model of the JS String.prototype.toUpperCase on the ASCII keys in play,
written over the character list so the kernel can evaluate it. -/
def toUpperJS (s : String) : String :=
  String.mk (s.data.map Char.toUpper)

/-- Proxy resolution step of Scraper.setupLaunchOptions
(src/unnamed/part_000 lines 48-60): the proxy type none yields no proxy
object, any other type reads the four PROXY_<TYPE>_* keys, each defaulting to
the empty string when unset. -/
def resolveProxy (cfg : IScraperConfig) (env : Env) : Option IProxyConfig :=
  if cfg.proxy_type == "none" then none
  else some
    { server := (env (("PROXY_") ++ toUpperJS cfg.proxy_type ++ ("_SERVER"))).getD (""),
      username := (env (("PROXY_") ++ toUpperJS cfg.proxy_type ++ ("_USERNAME"))).getD (""),
      password := (env (("PROXY_") ++ toUpperJS cfg.proxy_type ++ ("_PASSWORD"))).getD (""),
      bypass := (env (("PROXY_") ++ toUpperJS cfg.proxy_type ++ ("_BYPASS"))).getD ("") }

/-- Scraper.setupLaunchOptions (src/unnamed/part_000 lines 47-80): resolve the
proxy, set headless from parseBool, then the family switch: webkit forces the
proxy off, firefox changes nothing, chromium attaches stealth and blockAds
from parseBool of the config fields, and the default branch (any other or
absent family) changes nothing. -/
def setupLaunchOptions (cfg : IScraperConfig) (env : Env) : LaunchOptions :=
  let base : LaunchOptions :=
    { launchOptionsDefaults with
        proxy := resolveProxy cfg env,
        headless := parseBool cfg.headless }
  match cfg.browser_type with
  | some s =>
      if s == "webkit" then { base with proxy := none }
      else if s == "firefox" then base
      else if s == "chromium" then
        { base with
            stealth := some (parseBool cfg.stealth),
            blockAds := some (parseBool cfg.block_ads) }
      else base
  | none => base

/-- Action performed synchronously by one of the three page event handlers of
Scraper.scrape (src/unnamed/part_000 lines 172-181). -/
inductive HandlerAction where
  | log (level msg : String)
  | throwError (msg : String)
  | dismiss
deriving DecidableEq, Repr

/-- Test whether a handler action raises an error. -/
def HandlerAction.isThrow : HandlerAction → Bool
  | .throwError _ => true
  | _ => false

/-- The crash handler (part_000 lines 172-175): log, then throw. -/
def crashHandler (pageUrl : Option String) : List HandlerAction :=
  [.log ("error") (("Page crashed on ") ++ pageUrl.getD ("unknown")),
   .throwError ("Page crashed")]

/-- The close handler (part_000 lines 176-178): a warning log and nothing
else. -/
def closeHandler (pageUrl : Option String) : List HandlerAction :=
  [.log ("warn") (("Page closed on ") ++ pageUrl.getD ("unknown"))]

/-- The dialog handler (part_000 lines 179-181): dismiss the dialog. -/
def dialogHandler : List HandlerAction :=
  [.dismiss]

/-- Observable operation of one session, in the order the source performs
them; teardown operations carry no payload, the timed operations carry the
value the source passes. -/
inductive Ev where
  | connect
  | newContext
  | newPage
  | route
  | setDefaultTimeout (t : ℚ)
  | onCrash
  | onClose
  | onDialog
  | goto (url : String) (waitUntil : String)
  | waitForTimeout (ms : ℚ)
  | waitForSelector (sel : String)
  | evaluate (script : String)
  | screenshot (budget : ℚ)
  | content
  | cookies
  | offCrash
  | offClose
  | offDialog
  | unroute
  | pageClose
  | contextClose
  | removeAllListeners
  | browserClose
  | logError
deriving DecidableEq, Repr

/-- Playwright navigation response as the source consumes it: headers and
status. -/
structure Response where
  headers : List (String × String)
  status : Nat
deriving DecidableEq, Repr

/-- Cookie record, reduced to the fields the embedding observes. -/
structure Cookie where
  name : String
  value : String
deriving DecidableEq, Repr

/-- IScraperResult (src/src/types/Scraper.types.ts).  The source builds the
object from an empty literal and assigns fields one at a time, so every field
is optional here, url and status_code included. -/
structure IScraperResult where
  url : Option String := none
  status_code : Option Nat := none
  body : Option String := none
  error : Option String := none
  cookies : Option (List Cookie) := none
  headers : Option (List (String × String)) := none
  screenshot : Option String := none
  eval_result : Option String := none
deriving DecidableEq, Repr

/-- The handle fields of the Scraper instance: whether this.browser,
this.context and this.page are non-null.  A handle becomes true only once the
corresponding await has completed and the assignment has run. -/
structure SessionState where
  browser : Bool := false
  context : Bool := false
  page : Bool := false
deriving DecidableEq, Repr

deriving instance DecidableEq for Except

/-- Outcome of every remote operation of one session, fixed up front: each
await either resolves (ok) or rejects (error message), and the teardown flags
say whether each best-effort close step succeeds and whether the connection
is still open when cleanup reaches it. -/
structure Oracle where
  connect : Except String Unit
  newContext : Except String Unit
  newPage : Except String Unit
  route : Except String Unit
  goto : Except String (Option Response)
  waitForTimeout : Except String Unit
  waitForSelector : Except String Unit
  evaluate : Except String String
  screenshot : Except String String
  finalUrl : String
  content : Except String String
  cookies : Except String (List Cookie)
  unrouteOk : Bool
  pageCloseOk : Bool
  contextCloseOk : Bool
  browserConnected : Bool
  browserCloseOk : Bool
deriving DecidableEq, Repr

/-- Boolean success test for an Except value. -/
def exOk {α : Type} : Except String α → Bool
  | .ok _ => true
  | .error _ => false

/-- The timeout getter (part_000 lines 24-26): the configured timeout or the
60000 default. -/
def timeoutEff (cfg : IScraperConfig) : ℚ :=
  cfg.timeout.getD 60000

/-- The effective navigation target (part_000 line 183): the config URL,
prefixed with the view-source scheme when view_source is defined and parses
true. -/
def theURL (cfg : IScraperConfig) : String :=
  if cfg.view_source.isSome && parseBool cfg.view_source then
    ("view-source:") ++ cfg.url
  else cfg.url

/-- The navigation wait condition (part_000 line 192): configured value or
domcontentloaded. -/
def waitUntilEff (cfg : IScraperConfig) : String :=
  cfg.wait_until.getD ("domcontentloaded")

/-- res?.headers() ?? {} (part_000 line 194). -/
def headersOf : Option Response → List (String × String)
  | some r => r.headers
  | none => []

/-- res?.status() ?? 0 (part_000 line 211). -/
def statusOf : Option Response → Nat
  | some r => r.status
  | none => 0

/-- The response the navigation produced, when it did not reject. -/
def getGotoRes (o : Oracle) : Option Response :=
  match o.goto with
  | .ok r => r
  | .error _ => none

/-- Truthiness of the block_resources field (part_000 line 135): a defined,
non-empty string. -/
def blockResourcesCond (cfg : IScraperConfig) : Bool :=
  match cfg.block_resources with
  | some s => !(s == "")
  | none => false

/-- Truthiness of the screenshot field (part_000 line 205). -/
def screenshotCond (cfg : IScraperConfig) : Bool :=
  match cfg.screenshot with
  | some v => sbTruthy v
  | none => false

/-- Hex digit value, used by the percent decoder. -/
def hexVal (c : Char) : Option Nat :=
  if ('0' ≤ c) ∧ (c ≤ '9') then some (c.toNat - ('0').toNat)
  else if ('A' ≤ c) ∧ (c ≤ 'F') then some (c.toNat - ('A').toNat + 10)
  else if ('a' ≤ c) ∧ (c ≤ 'f') then some (c.toNat - ('a').toNat + 10)
  else none

/-- Byte-level model of the percent decoding done by the JS builtin
decodeURIComponent: every percent sign must be followed by two hex digits
and decodes to the corresponding code point; a malformed escape fails. -/
def percentDecodeList : List Char → Option (List Char)
  | [] => some []
  | '%' :: c1 :: c2 :: rest =>
      match hexVal c1, hexVal c2 with
      | some h, some l => (percentDecodeList rest).map (fun cs => Char.ofNat (16 * h + l) :: cs)
      | _, _ => none
  | '%' :: _ => none
  | c :: rest => (percentDecodeList rest).map (fun cs => c :: cs)

/-- decodeURIComponent as the source calls it (part_000 line 202): a
successful decode or a thrown URI error. -/
def decodeURIComponent (s : String) : Except String String :=
  match percentDecodeList s.data with
  | some cs => .ok (String.mk cs)
  | none => .error ("URI malformed")

/-- The failure envelope built by the catch block of Scraper.scrape
(part_000 lines 214-219): a fresh object with only the originally requested
URL, the error message and status 500. -/
def mkFailure (url msg : String) : IScraperResult :=
  { url := some url, error := some msg, status_code := some 500 }

/-- Fixed-delay wait (part_000 lines 195-197): runs only when wait_for is
defined and truthy (non-zero). -/
def stepWaitFor (cfg : IScraperConfig) (o : Oracle) (tr : List Ev) :
    Except String Unit × List Ev :=
  match cfg.wait_for with
  | none => (.ok (), tr)
  | some t =>
      if t = 0 then (.ok (), tr)
      else
        match o.waitForTimeout with
        | .error e => (.error e, tr ++ [.waitForTimeout t])
        | .ok _ => (.ok (), tr ++ [.waitForTimeout t])

/-- Selector wait (part_000 lines 198-200): runs only when wait_for_css is
defined and truthy (non-empty). -/
def stepWaitCss (cfg : IScraperConfig) (o : Oracle) (tr : List Ev) :
    Except String Unit × List Ev :=
  match cfg.wait_for_css with
  | none => (.ok (), tr)
  | some s =>
      if s = "" then (.ok (), tr)
      else
        match o.waitForSelector with
        | .error e => (.error e, tr ++ [.waitForSelector s])
        | .ok _ => (.ok (), tr ++ [.waitForSelector s])

/-- Script evaluation (part_000 lines 201-204): runs whenever eval_js is
defined; the argument is percent-decoded first (a malformed escape throws
before the remote call), and the returned value is stored on the result. -/
def stepEval (cfg : IScraperConfig) (o : Oracle) (r : IScraperResult) (tr : List Ev) :
    Except String IScraperResult × List Ev :=
  match cfg.eval_js with
  | none => (.ok r, tr)
  | some js =>
      match decodeURIComponent js with
      | .error e => (.error e, tr)
      | .ok script =>
          match o.evaluate with
          | .error e => (.error e, tr ++ [.evaluate script])
          | .ok v => (.ok { r with eval_result := some v }, tr ++ [.evaluate script])

/-- Screenshot (part_000 lines 205-208): runs when the screenshot field is
truthy, with an inner timeout of half the effective timeout; the base64
string is stored on the result. -/
def stepScreenshot (cfg : IScraperConfig) (o : Oracle) (r : IScraperResult) (tr : List Ev) :
    Except String IScraperResult × List Ev :=
  if screenshotCond cfg then
    match o.screenshot with
    | .error e => (.error e, tr ++ [.screenshot (timeoutEff cfg / 2)])
    | .ok b64 => (.ok { r with screenshot := some b64 }, tr ++ [.screenshot (timeoutEff cfg / 2)])
  else (.ok r, tr)

/-- Events of the fixed-delay wait, as a function of the configuration. -/
def waitForEvs (cfg : IScraperConfig) : List Ev :=
  match cfg.wait_for with
  | some t => if t = 0 then [] else [.waitForTimeout t]
  | none => []

/-- Events of the selector wait. -/
def waitCssEvs (cfg : IScraperConfig) : List Ev :=
  match cfg.wait_for_css with
  | some s => if s = "" then [] else [.waitForSelector s]
  | none => []

/-- Events of the script evaluation: present when eval_js is configured and
its percent decoding succeeds. -/
def evalEvs (cfg : IScraperConfig) : List Ev :=
  match cfg.eval_js with
  | some js =>
      match decodeURIComponent js with
      | .ok sc => [.evaluate sc]
      | .error _ => []
  | none => []

/-- Events of the screenshot capture, carrying its inner timeout of half the
effective timeout. -/
def screenshotEvs (cfg : IScraperConfig) : List Ev :=
  if screenshotCond cfg then [.screenshot (timeoutEff cfg / 2)] else []

/-- The four optional post-navigation actions in source order: fixed wait,
selector wait, evaluation, screenshot. -/
def postActions (cfg : IScraperConfig) (o : Oracle) (r : IScraperResult) (tr : List Ev) :
    Except String IScraperResult × List Ev :=
  match stepWaitFor cfg o tr with
  | (.error e, tr1) => (.error e, tr1)
  | (.ok _, tr1) =>
      match stepWaitCss cfg o tr1 with
      | (.error e, tr2) => (.error e, tr2)
      | (.ok _, tr2) =>
          match stepEval cfg o r tr2 with
          | (.error e, tr3) => (.error e, tr3)
          | (.ok r1, tr3) => stepScreenshot cfg o r1 tr3

/-- The capture tail of Scraper.scrape (part_000 lines 209-213): final URL,
body, status code and cookie jar, assigned onto the result in that order. -/
def capture (o : Oracle) (res : Option Response) (r : IScraperResult) (tr : List Ev) :
    Except String IScraperResult × List Ev :=
  match o.content with
  | .error e => (.error e, tr ++ [.content])
  | .ok body =>
      match o.cookies with
      | .error e => (.error e, tr ++ [.content, .cookies])
      | .ok cks =>
          (.ok { r with url := some o.finalUrl, body := some body,
                        status_code := some (statusOf res), cookies := some cks },
           tr ++ [.content, .cookies])

/-- Handle state once setupBrowser, setupContext and setupPage have all
completed. -/
def allSt : SessionState :=
  { browser := true, context := true, page := true }

/-- Events of the setup chain through the navigation: connect, context, page,
the optional interception rule, the default timeout, the three listener
installations and the navigation itself. -/
def setupEvs (cfg : IScraperConfig) : List Ev :=
  [.connect, .newContext, .newPage]
    ++ (if blockResourcesCond cfg then [Ev.route] else [])
    ++ [.setDefaultTimeout (timeoutEff cfg), .onCrash, .onClose, .onDialog,
        .goto (theURL cfg) (waitUntilEff cfg)]

/-- The try block of Scraper.scrape (part_000 lines 182-213): the setup
chain, the listener installation, the navigation and the capture, stopping at
the first rejected await with the pending error.  The returned state says
which handle fields were assigned before the stop, and the trace records the
operations attempted. -/
def scrapeBody (cfg : IScraperConfig) (o : Oracle) :
    Except String IScraperResult × SessionState × List Ev :=
  match o.connect with
  | .error e => (.error e, {}, [.connect])
  | .ok _ =>
      -- setupContext (part_000 lines 117-122); its null-guard cannot fire
      -- here, the browser handle was assigned on the previous line.
      match o.newContext with
      | .error e => (.error e, { browser := true }, [.connect, .newContext])
      | .ok _ =>
          -- setupPage (part_000 lines 130-141): the page handle is assigned
          -- only after newPage, the optional route installation and
          -- setDefaultTimeout have all completed.
          match o.newPage with
          | .error e => (.error e, { browser := true, context := true }, [.connect, .newContext, .newPage])
          | .ok _ =>
              match (if blockResourcesCond cfg then o.route else .ok ()) with
              | .error e =>
                  (.error e, { browser := true, context := true },
                    [.connect, .newContext, .newPage] ++ (if blockResourcesCond cfg then [Ev.route] else []))
              | .ok _ =>
                  match o.goto with
                  | .error e => (.error e, allSt, setupEvs cfg)
                  | .ok res =>
                      match postActions cfg o { headers := some (headersOf res) } (setupEvs cfg) with
                      | (.error e, tr2) => (.error e, allSt, tr2)
                      | (.ok r1, tr2) =>
                          match capture o res r1 tr2 with
                          | (.error e, tr3) => (.error e, allSt, tr3)
                          | (.ok r2, tr3) => (.ok r2, allSt, tr3)

/-- Scraper.cleanup (part_000 lines 147-161): unroute then close the page
when the page handle exists, close the context when it exists, and when the
connection handle exists and is still open, drop its listeners and close it;
every close step is individually caught and merely logged on failure. -/
def cleanupTrace (st : SessionState) (o : Oracle) : List Ev :=
  (if st.page then
      [Ev.unroute] ++ (if o.unrouteOk then [] else [Ev.logError])
        ++ [Ev.pageClose] ++ (if o.pageCloseOk then [] else [Ev.logError])
    else [])
  ++ (if st.context then
        [Ev.contextClose] ++ (if o.contextCloseOk then [] else [Ev.logError])
      else [])
  ++ (if st.browser then
        (if o.browserConnected then
            [Ev.removeAllListeners, Ev.browserClose] ++ (if o.browserCloseOk then [] else [Ev.logError])
          else [])
      else [])

/-- The finally block of Scraper.scrape (part_000 lines 220-231): when the
page handle exists the three listeners are removed first, then cleanup runs;
the whole block is wrapped in its own try/catch, so it never throws. -/
def finallyTrace (st : SessionState) (o : Oracle) : List Ev :=
  (if st.page then [Ev.offCrash, Ev.offClose, Ev.offDialog] else []) ++ cleanupTrace st o

/-- Scraper.scrape (part_000 lines 170-232): the try block runs to an
outcome, the catch turns a thrown error into the failure envelope (discarding
every partially captured field), and the finally appends teardown on both
paths. -/
def scrape (cfg : IScraperConfig) (o : Oracle) : IScraperResult × List Ev :=
  match scrapeBody cfg o with
  | (.ok r, st, tr) => (r, tr ++ finallyTrace st o)
  | (.error e, st, tr) => (mkFailure cfg.url e, tr ++ finallyTrace st o)

/-- Scraper.run (part_000 lines 240-250): awaits scrape inside a try/catch of
its own; scrape resolves on every path (its catch and guarded finally swallow
every error), so run returns its value unchanged and never throws. -/
def run (cfg : IScraperConfig) (o : Oracle) : IScraperResult :=
  (scrape cfg o).1

/-- Test for a log entry of a swallowed teardown error. -/
def isLog : Ev → Bool
  | .logError => true
  | _ => false

/-- The trace with the log entries of swallowed teardown errors removed. -/
def dropLogs (tr : List Ev) : List Ev :=
  tr.filter (fun e => !(isLog e))

/-- Conjunction of success of every remote operation other than the
navigation itself. -/
def oracleAllOkB (o : Oracle) : Bool :=
  exOk o.connect && exOk o.newContext && exOk o.newPage && exOk o.route &&
  exOk o.waitForTimeout && exOk o.waitForSelector && exOk o.evaluate &&
  exOk o.screenshot && exOk o.content && exOk o.cookies

/-- The configured script, when present, percent-decodes without an error. -/
def evalDecodesB (cfg : IScraperConfig) : Bool :=
  match cfg.eval_js with
  | some js => exOk (decodeURIComponent js)
  | none => true

/-- Empty environment: every key unset. -/
def envEmpty : Env := fun _ => none

/-- Environment holding one datacenter proxy server key. -/
def envP : Env := fun k =>
  if k = ("PROXY_DATACENTER_SERVER") then some ("http://proxy.example:8080") else none

/-- An oracle on which every remote operation succeeds. -/
def oracleOk : Oracle :=
  { connect := .ok (), newContext := .ok (), newPage := .ok (), route := .ok (),
    goto := .ok (some { headers := [(("content-type"), ("text/html"))], status := 200 }),
    waitForTimeout := .ok (), waitForSelector := .ok (),
    evaluate := .ok ("2"), screenshot := .ok ("aGVsbG8="),
    finalUrl := "https://example.com/final",
    content := .ok ("<html></html>"),
    cookies := .ok [{ name := ("sid"), value := ("1") }],
    unrouteOk := true, pageCloseOk := true, contextCloseOk := true,
    browserConnected := true, browserCloseOk := true }

/-- The all-success oracle, but the navigation resolves without a response
object. -/
def oracleGotoNone : Oracle := { oracleOk with goto := .ok none }

/-- The all-success oracle, but the connect rejects. -/
def oracleConnFail : Oracle := { oracleOk with connect := .error ("boom") }

/-- A minimal configuration. -/
def cfgBase : IScraperConfig := { url := "https://example.com", proxy_type := "none" }

/-- Configuration enabling all four post-navigation actions and resource
blocking. -/
def cfgPost : IScraperConfig :=
  { cfgBase with
      wait_for := some 100,
      wait_for_css := some ("div"),
      eval_js := some ("1%2B1"),
      screenshot := some (.str ("true")),
      block_resources := some ("image") }

/-- Firefox configuration with a datacenter proxy type. -/
def cfgDC : IScraperConfig :=
  { url := "https://example.com", proxy_type := "datacenter", browser_type := some ("firefox") }

/-- Webkit configuration with a datacenter proxy type. -/
def cfgWebkitProxy : IScraperConfig :=
  { url := "https://example.com", proxy_type := "datacenter", browser_type := some ("webkit") }

/-- Configuration whose family string matches none of the three supported
families, with stealth and ad-block requested. -/
def cfgOpera : IScraperConfig :=
  { url := "https://example.com", proxy_type := "none", browser_type := some ("opera"),
    stealth := some (.str ("true")), block_ads := some (.str ("true")) }

lemma stepWaitFor_ok_trace (cfg : IScraperConfig) (o : Oracle) (tr : List Ev)
    (u : Unit) (tr' : List Ev) (h : stepWaitFor cfg o tr = (.ok u, tr')) :
    tr' = tr ++ waitForEvs cfg := by
  unfold stepWaitFor at h
  unfold waitForEvs
  repeat' split at h
  all_goals simp_all

lemma stepWaitFor_ok_of (cfg : IScraperConfig) (o : Oracle) (tr : List Ev)
    (h : exOk o.waitForTimeout = true) : exOk (stepWaitFor cfg o tr).1 = true := by
  unfold stepWaitFor
  repeat' split
  all_goals simp_all [exOk]

lemma stepWaitCss_ok_trace (cfg : IScraperConfig) (o : Oracle) (tr : List Ev)
    (u : Unit) (tr' : List Ev) (h : stepWaitCss cfg o tr = (.ok u, tr')) :
    tr' = tr ++ waitCssEvs cfg := by
  unfold stepWaitCss at h
  unfold waitCssEvs
  repeat' split at h
  all_goals simp_all

lemma stepWaitCss_ok_of (cfg : IScraperConfig) (o : Oracle) (tr : List Ev)
    (h : exOk o.waitForSelector = true) : exOk (stepWaitCss cfg o tr).1 = true := by
  unfold stepWaitCss
  repeat' split
  all_goals simp_all [exOk]

lemma stepEval_ok_trace (cfg : IScraperConfig) (o : Oracle) (r : IScraperResult) (tr : List Ev)
    (r' : IScraperResult) (tr' : List Ev) (h : stepEval cfg o r tr = (.ok r', tr')) :
    tr' = tr ++ evalEvs cfg := by
  unfold stepEval at h
  unfold evalEvs
  repeat' split at h
  all_goals simp_all

lemma stepEval_ok_fields (cfg : IScraperConfig) (o : Oracle) (r : IScraperResult) (tr : List Ev)
    (r' : IScraperResult) (tr' : List Ev) (h : stepEval cfg o r tr = (.ok r', tr')) :
    r'.url = r.url ∧ r'.status_code = r.status_code ∧ r'.body = r.body
      ∧ r'.cookies = r.cookies ∧ r'.headers = r.headers ∧ r'.error = r.error
      ∧ r'.screenshot = r.screenshot := by
  unfold stepEval at h
  repeat' split at h
  any_goals simp_all
  all_goals (obtain ⟨h1, h2⟩ := h; subst h1; subst h2; simp)

lemma stepEval_ok_of (cfg : IScraperConfig) (o : Oracle) (r : IScraperResult) (tr : List Ev)
    (h : exOk o.evaluate = true) (hd : evalDecodesB cfg = true) :
    exOk (stepEval cfg o r tr).1 = true := by
  unfold stepEval
  unfold evalDecodesB at hd
  repeat' split
  all_goals simp_all [exOk]

lemma stepScreenshot_ok_trace (cfg : IScraperConfig) (o : Oracle) (r : IScraperResult) (tr : List Ev)
    (r' : IScraperResult) (tr' : List Ev) (h : stepScreenshot cfg o r tr = (.ok r', tr')) :
    tr' = tr ++ screenshotEvs cfg := by
  unfold stepScreenshot at h
  unfold screenshotEvs
  repeat' split at h
  all_goals simp_all

lemma stepScreenshot_ok_fields (cfg : IScraperConfig) (o : Oracle) (r : IScraperResult) (tr : List Ev)
    (r' : IScraperResult) (tr' : List Ev) (h : stepScreenshot cfg o r tr = (.ok r', tr')) :
    r'.url = r.url ∧ r'.status_code = r.status_code ∧ r'.body = r.body
      ∧ r'.cookies = r.cookies ∧ r'.headers = r.headers ∧ r'.error = r.error
      ∧ r'.eval_result = r.eval_result := by
  unfold stepScreenshot at h
  repeat' split at h
  any_goals simp_all
  all_goals (obtain ⟨h1, h2⟩ := h; subst h1; subst h2; simp)

lemma stepScreenshot_ok_of (cfg : IScraperConfig) (o : Oracle) (r : IScraperResult) (tr : List Ev)
    (h : exOk o.screenshot = true) : exOk (stepScreenshot cfg o r tr).1 = true := by
  unfold stepScreenshot
  repeat' split
  all_goals simp_all [exOk]

lemma exOk_exists {a : Type} (x : Except String a) (h : exOk x = true) :
    ∃ v, x = .ok v := by
  cases x with
  | ok v => exact ⟨v, rfl⟩
  | error e => simp [exOk] at h

lemma postActions_ok_trace (cfg : IScraperConfig) (o : Oracle) (r : IScraperResult) (tr : List Ev)
    (r' : IScraperResult) (tr' : List Ev) (h : postActions cfg o r tr = (.ok r', tr')) :
    tr' = tr ++ (waitForEvs cfg ++ (waitCssEvs cfg ++ (evalEvs cfg ++ screenshotEvs cfg))) := by
  unfold postActions at h
  cases h1 : stepWaitFor cfg o tr with
  | mk e1 t1 =>
  rw [h1] at h
  cases e1 with
  | error m => simp at h
  | ok u1 =>
  simp only [] at h
  cases h2 : stepWaitCss cfg o t1 with
  | mk e2 t2 =>
  rw [h2] at h
  cases e2 with
  | error m => simp at h
  | ok u2 =>
  simp only [] at h
  cases h3 : stepEval cfg o r t2 with
  | mk e3 t3 =>
  rw [h3] at h
  cases e3 with
  | error m => simp at h
  | ok r1 =>
  simp only [] at h
  have e1 := stepWaitFor_ok_trace cfg o tr u1 t1 h1
  have e2 := stepWaitCss_ok_trace cfg o t1 u2 t2 h2
  have e3 := stepEval_ok_trace cfg o r t2 r1 t3 h3
  have e4 := stepScreenshot_ok_trace cfg o r1 t3 r' tr' h
  subst e1; subst e2; subst e3; subst e4
  simp [List.append_assoc]

lemma postActions_ok_fields (cfg : IScraperConfig) (o : Oracle) (r : IScraperResult) (tr : List Ev)
    (r' : IScraperResult) (tr' : List Ev) (h : postActions cfg o r tr = (.ok r', tr')) :
    r'.url = r.url ∧ r'.status_code = r.status_code ∧ r'.body = r.body
      ∧ r'.cookies = r.cookies ∧ r'.headers = r.headers ∧ r'.error = r.error := by
  unfold postActions at h
  cases h1 : stepWaitFor cfg o tr with
  | mk e1 t1 =>
  rw [h1] at h
  cases e1 with
  | error m => simp at h
  | ok u1 =>
  simp only [] at h
  cases h2 : stepWaitCss cfg o t1 with
  | mk e2 t2 =>
  rw [h2] at h
  cases e2 with
  | error m => simp at h
  | ok u2 =>
  simp only [] at h
  cases h3 : stepEval cfg o r t2 with
  | mk e3 t3 =>
  rw [h3] at h
  cases e3 with
  | error m => simp at h
  | ok r1 =>
  simp only [] at h
  have f3 := stepEval_ok_fields cfg o r t2 r1 t3 h3
  have f4 := stepScreenshot_ok_fields cfg o r1 t3 r' tr' h
  obtain ⟨a1, a2, a3, a4, a5, a6, a7⟩ := f3
  obtain ⟨b1, b2, b3, b4, b5, b6, b7⟩ := f4
  exact ⟨b1.trans a1, b2.trans a2, b3.trans a3, b4.trans a4, b5.trans a5, b6.trans a6⟩

lemma postActions_ok_of (cfg : IScraperConfig) (o : Oracle) (r : IScraperResult) (tr : List Ev)
    (hw : exOk o.waitForTimeout = true) (hs : exOk o.waitForSelector = true)
    (he : exOk o.evaluate = true) (hd : evalDecodesB cfg = true)
    (hc : exOk o.screenshot = true) :
    exOk (postActions cfg o r tr).1 = true := by
  unfold postActions
  cases h1 : stepWaitFor cfg o tr with
  | mk e1 t1 =>
  cases e1 with
  | error m =>
      exfalso
      have hh := stepWaitFor_ok_of cfg o tr hw
      rw [h1] at hh
      simp [exOk] at hh
  | ok u1 =>
  simp only []
  cases h2 : stepWaitCss cfg o t1 with
  | mk e2 t2 =>
  cases e2 with
  | error m =>
      exfalso
      have hh := stepWaitCss_ok_of cfg o t1 hs
      rw [h2] at hh
      simp [exOk] at hh
  | ok u2 =>
  simp only []
  cases h3 : stepEval cfg o r t2 with
  | mk e3 t3 =>
  cases e3 with
  | error m =>
      exfalso
      have hh := stepEval_ok_of cfg o r t2 he hd
      rw [h3] at hh
      simp [exOk] at hh
  | ok r1 =>
  simpa using stepScreenshot_ok_of cfg o r1 t3 hc

lemma capture_ok_trace (o : Oracle) (res : Option Response) (r : IScraperResult) (tr : List Ev)
    (r' : IScraperResult) (tr' : List Ev) (h : capture o res r tr = (.ok r', tr')) :
    tr' = tr ++ [Ev.content, Ev.cookies] := by
  unfold capture at h
  repeat' split at h
  all_goals simp_all

lemma capture_ok_fields (o : Oracle) (res : Option Response) (r : IScraperResult) (tr : List Ev)
    (r' : IScraperResult) (tr' : List Ev) (h : capture o res r tr = (.ok r', tr')) :
    r'.url = some o.finalUrl ∧ r'.status_code = some (statusOf res)
      ∧ r'.headers = r.headers ∧ r'.error = r.error
      ∧ r'.body.isSome = true ∧ r'.cookies.isSome = true := by
  unfold capture at h
  repeat' split at h
  any_goals (simp at h)
  obtain ⟨h1, h2⟩ := h
  subst h1; subst h2
  simp

lemma capture_ok_of (o : Oracle) (res : Option Response) (r : IScraperResult) (tr : List Ev)
    (hc : exOk o.content = true) (hk : exOk o.cookies = true) :
    exOk (capture o res r tr).1 = true := by
  unfold capture
  repeat' split
  all_goals simp_all [exOk]

lemma scrapeBody_ok_master (cfg : IScraperConfig) (o : Oracle) (r : IScraperResult)
    (st : SessionState) (tr : List Ev) (h : scrapeBody cfg o = (.ok r, st, tr)) :
    r.url = some o.finalUrl
      ∧ r.status_code = some (statusOf (getGotoRes o))
      ∧ r.headers = some (headersOf (getGotoRes o))
      ∧ r.error = none
      ∧ r.body.isSome = true
      ∧ r.cookies.isSome = true
      ∧ st = allSt
      ∧ tr = setupEvs cfg ++ (waitForEvs cfg ++ (waitCssEvs cfg ++ (evalEvs cfg
              ++ (screenshotEvs cfg ++ [Ev.content, Ev.cookies])))) := by
  unfold scrapeBody at h
  cases hc : o.connect with
  | error e => rw [hc] at h; simp at h
  | ok u1 =>
  rw [hc] at h
  simp only [] at h
  cases hn : o.newContext with
  | error e => rw [hn] at h; simp at h
  | ok u2 =>
  rw [hn] at h
  simp only [] at h
  cases hp : o.newPage with
  | error e => rw [hp] at h; simp at h
  | ok u3 =>
  rw [hp] at h
  simp only [] at h
  cases hr : (if blockResourcesCond cfg then o.route else Except.ok ()) with
  | error e => rw [hr] at h; simp at h
  | ok u4 =>
  rw [hr] at h
  simp only [] at h
  cases hg : o.goto with
  | error e => rw [hg] at h; simp at h
  | ok res =>
  rw [hg] at h
  simp only [] at h
  cases hpa : postActions cfg o { headers := some (headersOf res) } (setupEvs cfg) with
  | mk pe pt =>
  rw [hpa] at h
  cases pe with
  | error e => simp at h
  | ok r1 =>
  simp only [] at h
  cases hcap : capture o res r1 pt with
  | mk ce ct =>
  rw [hcap] at h
  cases ce with
  | error e => simp at h
  | ok r2 =>
  simp only [Prod.mk.injEq, Except.ok.injEq] at h
  obtain ⟨h1, h2, h3⟩ := h
  subst h1; subst h2; subst h3
  have cf := capture_ok_fields o res r1 pt r2 ct hcap
  have ctr := capture_ok_trace o res r1 pt r2 ct hcap
  have pf := postActions_ok_fields cfg o { headers := some (headersOf res) } (setupEvs cfg) r1 pt hpa
  have ptr := postActions_ok_trace cfg o { headers := some (headersOf res) } (setupEvs cfg) r1 pt hpa
  obtain ⟨c1, c2, c3, c4, c5, c6⟩ := cf
  obtain ⟨p1, p2, p3, p4, p5, p6⟩ := pf
  have hgres : getGotoRes o = res := by
    unfold getGotoRes
    rw [hg]
  refine ⟨c1, ?_, ?_, ?_, c5, c6, rfl, ?_⟩
  · rw [c2, hgres]
  · rw [c3, p5, hgres]
  · rw [c4, p6]
  · rw [ctr, ptr]
    simp [List.append_assoc]

lemma scrapeBody_allOk (cfg : IScraperConfig) (o : Oracle)
    (hok : oracleAllOkB o = true) (hd : evalDecodesB cfg = true)
    (hg : exOk o.goto = true) : exOk (scrapeBody cfg o).1 = true := by
  unfold oracleAllOkB at hok
  simp only [Bool.and_eq_true] at hok
  obtain ⟨⟨⟨⟨⟨⟨⟨⟨⟨k1, k2⟩, k3⟩, k4⟩, k5⟩, k6⟩, k7⟩, k8⟩, k9⟩, k10⟩ := hok
  obtain ⟨u1, hc⟩ := exOk_exists _ k1
  obtain ⟨u2, hn⟩ := exOk_exists _ k2
  obtain ⟨u3, hp⟩ := exOk_exists _ k3
  have hr : (if blockResourcesCond cfg then o.route else Except.ok ()) = Except.ok () := by
    cases hbr : blockResourcesCond cfg with
    | false => simp
    | true =>
        obtain ⟨u4, hru⟩ := exOk_exists _ k4
        cases u4
        simp [hru]
  obtain ⟨res, hga⟩ := exOk_exists _ hg
  have hpo := postActions_ok_of cfg o { headers := some (headersOf res) } (setupEvs cfg) k5 k6 k7 hd k8
  obtain ⟨r1, hpa1⟩ := exOk_exists _ hpo
  have hpa : postActions cfg o { headers := some (headersOf res) } (setupEvs cfg)
      = (.ok r1, (postActions cfg o { headers := some (headersOf res) } (setupEvs cfg)).2) := by
    rw [← hpa1]
  have hco := capture_ok_of o res r1
    ((postActions cfg o { headers := some (headersOf res) } (setupEvs cfg)).2) k9 k10
  obtain ⟨r2, hcap1⟩ := exOk_exists _ hco
  have hcap : capture o res r1 ((postActions cfg o { headers := some (headersOf res) } (setupEvs cfg)).2)
      = (.ok r2, (capture o res r1 ((postActions cfg o { headers := some (headersOf res) } (setupEvs cfg)).2)).2) := by
    rw [← hcap1]
  unfold scrapeBody
  rw [hc, hn, hp, hr, hga]
  simp only []
  rw [hpa]
  simp only []
  rw [hcap]
  simp [exOk]

lemma setup_headless (cfg : IScraperConfig) (env : Env) :
    (setupLaunchOptions cfg env).headless = parseBool cfg.headless := by
  unfold setupLaunchOptions
  cases cfg.browser_type with
  | none => rfl
  | some s =>
      by_cases h1 : s = "webkit"
      · subst h1; rfl
      · by_cases h2 : s = "firefox"
        · subst h2; rfl
        · by_cases h3 : s = "chromium"
          · subst h3; rfl
          · simp [h1, h2, h3]

lemma setup_proxy_of_ne_webkit (cfg : IScraperConfig) (env : Env)
    (hb : cfg.browser_type ≠ some ("webkit")) :
    (setupLaunchOptions cfg env).proxy = resolveProxy cfg env := by
  unfold setupLaunchOptions
  cases hbt : cfg.browser_type with
  | none => rfl
  | some s =>
      have hs : ¬(s = "webkit") := by
        intro hh
        exact hb (by rw [hbt, hh])
      by_cases h2 : s = "firefox"
      · subst h2; rfl
      · by_cases h3 : s = "chromium"
        · subst h3; rfl
        · simp [hs, h2, h3]

/-- Claim C1: run always returns an envelope whose url and status_code fields
are populated, on the success path as well as on every failure path; in the
embedding run is a total function (the catch in scrape and the guarded
finally swallow every raised error), so no exception reaches the caller. -/
theorem run_returns_envelope :
    ∀ (cfg : IScraperConfig) (o : Oracle),
      (run cfg o).url.isSome = true ∧ (run cfg o).status_code.isSome = true := by
  intro cfg o
  unfold run scrape
  cases hsb : scrapeBody cfg o with
  | mk exc rest =>
    cases rest with
    | mk st tr =>
      cases exc with
      | error e => simp [mkFailure]
      | ok r =>
        have hm := scrapeBody_ok_master cfg o r st tr hsb
        obtain ⟨m1, m2, _⟩ := hm
        simp [m1, m2]

/-- Claim C2: whenever any stage of the session throws, the produced envelope
is exactly the originally requested config URL, the error message and status
500, and it carries none of the success-capture fields of the same attempt. -/
theorem failure_envelope_shape :
    ∀ (cfg : IScraperConfig) (o : Oracle) (m : String),
      (scrapeBody cfg o).1 = .error m →
      (run cfg o).url = some cfg.url
        ∧ (run cfg o).error = some m
        ∧ (run cfg o).status_code = some 500
        ∧ (run cfg o).body = none
        ∧ (run cfg o).headers = none
        ∧ (run cfg o).cookies = none
        ∧ (run cfg o).screenshot = none
        ∧ (run cfg o).eval_result = none := by
  intro cfg o m h
  unfold run scrape
  cases hsb : scrapeBody cfg o with
  | mk exc rest =>
    cases rest with
    | mk st tr =>
      rw [hsb] at h
      simp only [] at h
      subst h
      simp [mkFailure]

theorem failure_envelope_shape_witness :
    (scrapeBody cfgBase oracleConnFail).1 = .error ("boom")
    ∧ ((run cfgBase oracleConnFail).url = some cfgBase.url
        ∧ (run cfgBase oracleConnFail).error = some ("boom")
        ∧ (run cfgBase oracleConnFail).status_code = some 500
        ∧ (run cfgBase oracleConnFail).body = none
        ∧ (run cfgBase oracleConnFail).headers = none
        ∧ (run cfgBase oracleConnFail).cookies = none
        ∧ (run cfgBase oracleConnFail).screenshot = none
        ∧ (run cfgBase oracleConnFail).eval_result = none) :=
  ⟨by decide, failure_envelope_shape cfgBase oracleConnFail ("boom") (by decide)⟩

/-- Claim C3: on every exit path the scrape trace ends with the teardown
block, and the teardown block, with the logs of swallowed step failures
erased, is exactly: the three listener removals first, then unroute before
the page close, then the context close, then, only when the connection
handle exists and is still open, its listener drop and close; the closing
steps attempted do not depend on whether the earlier ones succeeded. -/
theorem teardown_order :
    ∀ (cfg : IScraperConfig) (o : Oracle),
      ((scrape cfg o).2
          = (scrapeBody cfg o).2.2 ++ finallyTrace (scrapeBody cfg o).2.1 o)
      ∧ (∀ st : SessionState,
          dropLogs (finallyTrace st o)
            = (if st.page then
                  [Ev.offCrash, Ev.offClose, Ev.offDialog, Ev.unroute, Ev.pageClose]
                else [])
              ++ (if st.context then [Ev.contextClose] else [])
              ++ (if st.browser && o.browserConnected then
                    [Ev.removeAllListeners, Ev.browserClose]
                  else [])) := by
  intro cfg o
  constructor
  · unfold scrape
    cases hsb : scrapeBody cfg o with
    | mk exc rest =>
      cases rest with
      | mk st tr => cases exc <;> simp
  · intro st
    obtain ⟨b, c, p⟩ := st
    cases b <;> cases c <;> cases p <;>
      cases hbc : o.browserConnected <;> cases hu : o.unrouteOk <;> cases hpc : o.pageCloseOk <;>
      cases hcc : o.contextCloseOk <;> cases hb2 : o.browserCloseOk <;>
      simp [finallyTrace, cleanupTrace, dropLogs, isLog, hbc, hu, hpc, hcc, hb2]

/-- Claim C4 (amended): when the browser family is not webkit, proxy type
none yields no proxy object and any other proxy type yields the proxy object
read from the four PROXY_<TYPE>_* environment keys, each defaulting to the
empty string when unset (an unset key is no error: the builder is total);
for webkit the proxy is forced absent by the family gating, which is why the
original claim fails there. -/
theorem proxy_resolution_amended :
    ∀ (cfg : IScraperConfig) (env : Env),
      cfg.browser_type ≠ some ("webkit") →
      ((cfg.proxy_type = ("none") → (setupLaunchOptions cfg env).proxy = none)
        ∧ (cfg.proxy_type ≠ ("none") →
            (setupLaunchOptions cfg env).proxy = some
              { server := (env (("PROXY_") ++ toUpperJS cfg.proxy_type ++ ("_SERVER"))).getD (""),
                username := (env (("PROXY_") ++ toUpperJS cfg.proxy_type ++ ("_USERNAME"))).getD (""),
                password := (env (("PROXY_") ++ toUpperJS cfg.proxy_type ++ ("_PASSWORD"))).getD (""),
                bypass := (env (("PROXY_") ++ toUpperJS cfg.proxy_type ++ ("_BYPASS"))).getD ("") })) := by
  intro cfg env hb
  have hpx := setup_proxy_of_ne_webkit cfg env hb
  constructor
  · intro hnone
    rw [hpx]
    unfold resolveProxy
    simp [hnone]
  · intro hne
    rw [hpx]
    unfold resolveProxy
    simp [hne]

theorem proxy_claim_cex :
    cfgWebkitProxy.proxy_type ≠ ("none")
    ∧ (setupLaunchOptions cfgWebkitProxy envP).proxy = none :=
  ⟨by decide, by decide⟩

theorem proxy_resolution_amended_witness :
    cfgDC.browser_type ≠ some ("webkit")
    ∧ cfgDC.proxy_type ≠ ("none")
    ∧ (setupLaunchOptions cfgDC envP).proxy
        = some { server := ("http://proxy.example:8080"),
                 username := (""), password := (""), bypass := ("") } := by
  refine ⟨by decide, by decide, ?_⟩
  have h := (proxy_resolution_amended cfgDC envP (by decide)).2 (by decide)
  rw [h]
  decide

/-- Claim C5: family gating of the launch parameters: webkit forces the proxy
absent and never sets stealth or ad-block; firefox never sets stealth or
ad-block; chromium sets both flags from parseBool of the config fields. -/
theorem family_gating :
    ∀ (cfg : IScraperConfig) (env : Env),
      ((setupLaunchOptions { cfg with browser_type := some ("webkit") } env).proxy = none
        ∧ (setupLaunchOptions { cfg with browser_type := some ("webkit") } env).stealth = none
        ∧ (setupLaunchOptions { cfg with browser_type := some ("webkit") } env).blockAds = none)
      ∧ ((setupLaunchOptions { cfg with browser_type := some ("firefox") } env).stealth = none
        ∧ (setupLaunchOptions { cfg with browser_type := some ("firefox") } env).blockAds = none)
      ∧ ((setupLaunchOptions { cfg with browser_type := some ("chromium") } env).stealth
            = some (parseBool cfg.stealth)
        ∧ (setupLaunchOptions { cfg with browser_type := some ("chromium") } env).blockAds
            = some (parseBool cfg.block_ads)) := by
  intro cfg env
  exact ⟨⟨rfl, rfl, rfl⟩, ⟨rfl, rfl⟩, ⟨rfl, rfl⟩⟩

/-- Claim C6 (amended): a family string outside the three supported families,
the absent family included, falls back to the chromium engine and raises no
validation error (the builder is total), but the launch-parameter gating
follows the default switch branch, which sets neither stealth nor ad-block
(unlike the family-A branch) and leaves the resolved proxy attached. -/
theorem unknown_family_amended :
    ∀ (cfg : IScraperConfig) (env : Env),
      cfg.browser_type ≠ some ("webkit") →
      cfg.browser_type ≠ some ("firefox") →
      cfg.browser_type ≠ some ("chromium") →
      getBrowser cfg.browser_type = EngineKind.chromium
      ∧ (setupLaunchOptions cfg env).stealth = none
      ∧ (setupLaunchOptions cfg env).blockAds = none
      ∧ (setupLaunchOptions cfg env).proxy = resolveProxy cfg env
      ∧ (setupLaunchOptions cfg env).headless = parseBool cfg.headless := by
  intro cfg env h1 h2 h3
  unfold setupLaunchOptions getBrowser
  cases hbt : cfg.browser_type with
  | none => exact ⟨rfl, rfl, rfl, rfl, rfl⟩
  | some s =>
      have hs1 : ¬(s = "webkit") := fun hh => h1 (by rw [hbt, hh])
      have hs2 : ¬(s = "firefox") := fun hh => h2 (by rw [hbt, hh])
      have hs3 : ¬(s = "chromium") := fun hh => h3 (by rw [hbt, hh])
      simp [hs1, hs2, hs3, launchOptionsDefaults]

theorem unknown_family_cex :
    getBrowser (some ("opera")) = EngineKind.chromium
    ∧ (setupLaunchOptions cfgOpera envEmpty).stealth = none
    ∧ (setupLaunchOptions { cfgOpera with browser_type := some ("chromium") } envEmpty).stealth
        = some true :=
  ⟨by decide, by decide, by decide⟩

theorem unknown_family_amended_witness :
    cfgOpera.browser_type ≠ some ("webkit")
    ∧ getBrowser cfgOpera.browser_type = EngineKind.chromium
    ∧ (setupLaunchOptions cfgOpera envEmpty).blockAds = none := by
  refine ⟨by decide, ?_, ?_⟩
  · exact (unknown_family_amended cfgOpera envEmpty (by decide) (by decide) (by decide)).1
  · exact (unknown_family_amended cfgOpera envEmpty (by decide) (by decide) (by decide)).2.2.1

/-- Claim C7 (amended): the close listener only logs a warning about the
externally closed page; unlike the crash listener it performs no throwing
action, so it does not itself terminate the session as a failure — a failure
envelope arises only when a subsequent page operation rejects. -/
theorem close_listener_amended :
    ∀ u : Option String,
      closeHandler u
          = [HandlerAction.log ("warn") (("Page closed on ") ++ u.getD ("unknown"))]
        ∧ (closeHandler u).any HandlerAction.isThrow = false
        ∧ (crashHandler u).any HandlerAction.isThrow = true := by
  intro u
  exact ⟨rfl, rfl, rfl⟩

theorem close_listener_cex :
    (closeHandler (some ("https://example.com"))).any HandlerAction.isThrow = false
    ∧ closeHandler (some ("https://example.com"))
        = [HandlerAction.log ("warn") ("Page closed on https://example.com")] :=
  ⟨rfl, by decide⟩

/-- Claim C8: when the navigation resolves without a response object and the
rest of the session succeeds, the envelope records empty headers and status
code 0 and the session is a success, not a failure. -/
theorem no_response_success :
    ∀ (cfg : IScraperConfig) (o : Oracle),
      oracleAllOkB o = true → evalDecodesB cfg = true → o.goto = .ok none →
      (run cfg o).error = none
        ∧ (run cfg o).headers = some []
        ∧ (run cfg o).status_code = some 0 := by
  intro cfg o hok hd hg
  have hOk : exOk (scrapeBody cfg o).1 = true :=
    scrapeBody_allOk cfg o hok hd (by rw [hg]; rfl)
  unfold run scrape
  cases hsb : scrapeBody cfg o with
  | mk exc rest =>
    cases rest with
    | mk st tr =>
      rw [hsb] at hOk
      cases exc with
      | error e => simp [exOk] at hOk
      | ok r =>
        have hm := scrapeBody_ok_master cfg o r st tr hsb
        obtain ⟨m1, m2, m3, m4, _⟩ := hm
        have hgr : getGotoRes o = none := by
          unfold getGotoRes
          rw [hg]
        rw [hgr] at m2 m3
        simp [m2, m3, m4, statusOf, headersOf]

theorem no_response_success_witness :
    oracleAllOkB oracleGotoNone = true
    ∧ evalDecodesB cfgBase = true
    ∧ oracleGotoNone.goto = .ok none
    ∧ ((run cfgBase oracleGotoNone).error = none
        ∧ (run cfgBase oracleGotoNone).headers = some []
        ∧ (run cfgBase oracleGotoNone).status_code = some 0) :=
  ⟨by decide, by decide, by decide,
   no_response_success cfgBase oracleGotoNone (by decide) (by decide) (by decide)⟩

/-- Claim C9: on a successful session the trace runs setup, navigation, then
the post actions in exactly the order fixed wait, selector wait, evaluation
of the percent-decoded script, full-page screenshot, then the capture tail;
the screenshot budget is exactly half the effective timeout, the configured
value or the 60000 default. -/
theorem post_actions_order :
    ∀ (cfg : IScraperConfig) (o : Oracle),
      exOk (scrapeBody cfg o).1 = true →
      (scrapeBody cfg o).2.2
        = setupEvs cfg ++ (waitForEvs cfg ++ (waitCssEvs cfg ++ (evalEvs cfg
            ++ ((if screenshotCond cfg then
                    [Ev.screenshot ((cfg.timeout.getD 60000) / 2)]
                  else [])
                ++ [Ev.content, Ev.cookies])))) := by
  intro cfg o h
  cases hsb : scrapeBody cfg o with
  | mk exc rest =>
    cases rest with
    | mk st tr =>
      rw [hsb] at h
      cases exc with
      | error e => simp [exOk] at h
      | ok r =>
        have hm := scrapeBody_ok_master cfg o r st tr hsb
        obtain ⟨_, _, _, _, _, _, _, htr⟩ := hm
        simpa [screenshotEvs, timeoutEff] using htr

theorem post_actions_order_witness :
    exOk (scrapeBody cfgPost oracleOk).1 = true
    ∧ (scrapeBody cfgPost oracleOk).2.2
        = [Ev.connect, Ev.newContext, Ev.newPage, Ev.route,
           Ev.setDefaultTimeout 60000, Ev.onCrash, Ev.onClose, Ev.onDialog,
           Ev.goto ("https://example.com") ("domcontentloaded"),
           Ev.waitForTimeout 100, Ev.waitForSelector ("div"), Ev.evaluate ("1+1"),
           Ev.screenshot ((60000 : ℚ) / 2), Ev.content, Ev.cookies]
    ∧ (60000 : ℚ) / 2 = 30000 := by
  refine ⟨by decide, ?_, by norm_num⟩
  rw [post_actions_order cfgPost oracleOk (by decide)]
  rfl

/-- Claim C10: parseBool is true exactly on the undefined value and the five
truthy strings; the boolean literal true parses to false, so leaving headless
unset yields a headless launch while passing the boolean true yields a
non-headless launch. -/
theorem parseBool_spec :
    (∀ v : Option StringBoolean,
      parseBool v = true ↔
        (v = none ∨ v = some (.str ("true")) ∨ v = some (.str ("1"))
          ∨ v = some (.str ("yes")) ∨ v = some (.str ("on"))
          ∨ v = some (.str ("enabled"))))
    ∧ parseBool (some (.bool true)) = false
    ∧ (∀ (cfg : IScraperConfig) (env : Env),
        (setupLaunchOptions { cfg with headless := none } env).headless = true
        ∧ (setupLaunchOptions { cfg with headless := some (.bool true) } env).headless
            = false) := by
  refine ⟨?_, rfl, ?_⟩
  · intro v
    cases v with
    | none => simp [parseBool]
    | some sb =>
        cases sb with
        | str s => simp [parseBool, sbEqStr, or_assoc]
        | bool b => simp [parseBool, sbEqStr]
  · intro cfg env
    constructor
    · rw [setup_headless]
      rfl
    · rw [setup_headless]
      rfl

end WebScraper
